import Mathlib

/-!
Shallow embedding of the marketfit harvesting pipeline (src/main.py).

The program is a Flask service that harvests "pain point" records from
three sources (Hacker News API, Reddit JSON feeds, mobile-app review
feeds), validates outbound URLs with an SSRF safety gate, aggregates the
records, and forwards a bounded prefix to an LLM for idea synthesis.

All external effects (DNS resolution, HTTP responses, library calls, the
LLM) are modelled as oracles in an `Env` record.  Each network-touching
function additionally returns a trace of `Ev` events: one `Ev.call u g`
per outbound network request, where `g` records whether that request's
URL had been approved by the safety gate (`SecurityManager.is_safe_url`)
before the request was issued, and one `Ev.sleep` per backoff/jitter
sleep.  A Python exception raised by an oracle is an `Except.error` /
dedicated constructor; `try/except` blocks are translated into the
corresponding case analyses.
-/

/-- A resolved IP address, abstracting Python's `ipaddress.ip_address`
objects: only the two predicates consulted by the code are kept. -/
structure IPAddr where
  is_private : Bool
  is_loopback : Bool

/-- A parsed URL, abstracting `urllib.parse.urlparse`: the scheme, the
(optional, possibly mixed-case) hostname, and the rest of the URL.
`hostname = none` models URLs with no host component (for which
`parsed.hostname.lower()` raises `AttributeError` in the source). -/
structure Url where
  scheme : String
  hostname : Option String
  path : String

/-- The normalized harvested record (`OpportunityRecord` of the spec):
the dicts built at src/main.py lines 141-146, 191-196, 315-320, 339-344. -/
structure OpportunityRecord where
  id : String
  text : String
  url : String
  source : String

/-- A parsed Hacker News item body: `story.get('id')`,
`story.get('title','') or ''`, `story.get('text','') or ''`. -/
structure Story where
  sid : Option Int
  title : String
  text : String

/-- Outcome of one HN detail fetch as seen after `asyncio.gather(...,
return_exceptions=True)`: either the task raised (`exn`), or a response
with a status code whose body `r.json()` either parses to a `Story` or
raises (`Except.error`). -/
inductive DetailResp where
  | exn
  | resp (status : Nat) (body : Except Unit Story)

/-- A parsed Reddit post (`post.get('data', {})` fields used). -/
structure Post where
  pid : String
  title : String
  selftext : String
  stickied : Bool
  permalink : String

/-- Outcome of one Reddit listing request attempt: the request raised
(`exn`), or a response with status code whose body `resp.json()` either
parses to a post list or raises (`Except.error`; `resp.json()` is only
invoked on status 200 in the source). -/
inductive RedditResp where
  | exn
  | resp (status : Nat) (body : Except Unit (List Post))

/-- First iTunes search result (`trackId`, `trackName`, `trackViewUrl`). -/
structure IosApp where
  trackId : Int
  trackName : String
  trackViewUrl : String

/-- The dict returned by `find_app` (spec: `AppResolution`).  `aid` is the
platform identifier rendered as a string (the Android package name, or
the iOS `trackId` as it is interpolated into the feed URL). -/
structure AppRes where
  platform : String
  aid : String
  title : String
  url : String

/-- One Google Play review (`reviewId`, `content`). -/
structure PlayReview where
  reviewId : String
  content : String

/-- One iOS review-feed entry.  `hasAuthor` models `'author' in entry`;
the remaining fields are the `.get(...).get('label', ...)` projections. -/
structure IosEntry where
  hasAuthor : Bool
  etitle : String
  content : String
  rating : String
  eid : String

/-- Outcome of a review-fetch stage.  `ok items` is a normal return of
the full item list; `err processed` models a Python exception raised
after the first `processed` items had already been iterated (so the
`opportunities` accumulator holds exactly the records built from
`processed` when control reaches the `except` handler). -/
inductive FetchOutcome (α : Type) where
  | ok (items : List α)
  | err (processed : List α)

/-- One idea object parsed from the LLM's JSON reply.  `name`/`pitch`
are `none` when the key is absent (so `idea['name']` raises `KeyError`);
`source_id` is `Except.error ()` when `int(idea.get('source_id', -1))`
raises `ValueError`. -/
structure RawIdea where
  name : Option String
  pitch : Option String
  source_id : Except Unit Int

/-- An enriched idea as assembled at src/main.py lines 398-404. -/
structure Enhanced where
  name : String
  pitch : String
  source_text : String
  source_url : String
  source_origin : String

/-- Observable events: an outbound network request (with the flag telling
whether its URL passed the safety gate before the request was issued) or
a jitter/backoff sleep. -/
inductive Ev where
  | call (url : Url) (gated : Bool)
  | sleep

/-- The `/generate-ideas` endpoint's reply: a JSON error with an HTTP
status, or the success payload `{raw_count, ideas}`. -/
inductive Resp where
  | err (status : Nat) (msg : String)
  | ok (raw_count : Nat) (ideas : List Enhanced)

/-- The request body after the `data.get(...)` defaulting in `generate`:
`source` defaults to "all", `subreddits` to `[]`, `app_name` to `""`,
`platform` to "android". -/
structure ReqData where
  source : String
  subreddits : List String
  app_name : String
  platform : String

/-- The external world: DNS, every HTTP endpoint and scraping library
the program calls, and the LLM.  Keyed so that distinct targets
(subreddit names, story ids, app ids) can answer independently. -/
structure Env where
  dns : String → Except Unit (List IPAddr)
  hnListing : Except Unit (List Int)
  hnDetail : Int → DetailResp
  reddit : String → Nat → RedditResp
  gpSearch : String → Except Unit (Nat × Option String)
  playApp : String → Except Unit String
  iosSearch : String → Except Unit (Option IosApp)
  playReviews : String → FetchOutcome PlayReview
  iosFeed : String → FetchOutcome IosEntry
  llm : String → Except Unit (List RawIdea)

/-! ### 0. String primitives

Python's `str.lower`, `str.strip`, `str.endswith` and the `in` substring
operator are modelled by structurally recursive functions over the
character list (the core `String` versions are extensionally the same
but are defined by well-founded recursion, which the kernel cannot
evaluate). -/

/-- Python `s.lower()`. -/
def lowerStr (s : String) : String := String.mk (s.data.map Char.toLower)

/-- Python `s.strip()`: drop leading and trailing whitespace. -/
def pyStrip (s : String) : String :=
  String.mk
    (((s.data.dropWhile Char.isWhitespace).reverse.dropWhile
        Char.isWhitespace).reverse)

/-- Python `s.endswith(suf)`. -/
def strEndsWith (s suf : String) : Bool := suf.data.isSuffixOf s.data

/-- Does the second list occur at the head of the first? -/
def listStartsWith : List Char → List Char → Bool
  | _, [] => true
  | [], _ :: _ => false
  | a :: as, b :: bs => a == b && listStartsWith as bs

/-- Does the second list occur as a contiguous sublist of the first? -/
def listContainsSub : List Char → List Char → Bool
  | [], needle => needle.isEmpty
  | a :: t, needle => listStartsWith (a :: t) needle || listContainsSub t needle

/-! ### 1. Security manager (src/main.py lines 56-104) -/

/-- The list `SecurityManager.ALLOWED_DOMAINS` (lines 57-61). -/
def ALLOWED_DOMAINS : List String :=
  ["hacker-news.firebaseio.com",
   "reddit.com", "www.reddit.com", "old.reddit.com",
   "itunes.apple.com", "apps.apple.com"]

/-- The allowlist test of lines 81-85: exact match or subdomain
(suffix `"." + allowed`). -/
def hostAllowed (h : String) : Bool :=
  ALLOWED_DOMAINS.any (fun d => (h == d) || strEndsWith h ("." ++ d))

/-- The per-address test of lines 94-98 (negated): the address is kept
only if it is neither private nor loopback. -/
def ipOk (ip : IPAddr) : Bool :=
  !ip.is_private && !ip.is_loopback

/-- The gate `SecurityManager.is_safe_url` (lines 63-104).  The `dns` oracle
models `socket.gethostbyname_ex(hostname)[2]`; its `Except.error` is a
resolution failure, which—like a `none` hostname (`AttributeError` on
`.lower()`)—falls into the `except` clause and yields `false`. -/
def is_safe_url (dns : String → Except Unit (List IPAddr)) (u : Url) : Bool :=
  if u.scheme = "https" then
    match u.hostname with
    | none => false
    | some h0 =>
      if hostAllowed (lowerStr h0) then
        match dns (lowerStr h0) with
        | Except.error _ => false
        | Except.ok ips => ips.all ipOk
      else false
  else false

/-! ### 2. Engine A: Hacker News (src/main.py lines 109-151) -/

/-- The listing URL `"https://hacker-news.firebaseio.com/v0/askstories.json"` (line 110). -/
def hnListingUrl : Url :=
  { scheme := "https", hostname := some ("hacker-news.firebaseio.com"),
    path := "/v0/askstories.json" }

/-- The detail URL of line 123, `"https://hacker-news.firebaseio.com/v0/item/" + sid + ".json"`. -/
def hnItemUrl (sid : Int) : Url :=
  { scheme := "https", hostname := some ("hacker-news.firebaseio.com"),
    path := "/v0/item/" ++ toString sid ++ ".json" }

/-- Python's `str(...)` on `story.get('id')` (str(None) = "None"). -/
def pyShow : Option Int → String
  | none => "None"
  | some n => toString n

/-- Python substring test `needle in hay`. -/
def strContains (hay needle : String) : Bool :=
  listContainsSub hay.data needle.data

/-- The keyword list of line 131. -/
def hnKeywords : List String :=
  ["how to", "alternative", "wish", "sucks", "problem", "hard to"]

/-- The precision filter of line 139:
`any(k in title.lower() or k in text.lower() for k in keywords)`. -/
def keywordHit (story : Story) : Bool :=
  hnKeywords.any (fun k =>
    strContains (lowerStr story.title) k || strContains (lowerStr story.text) k)

/-- The record built at lines 141-146. -/
def hnRecord (story : Story) : OpportunityRecord :=
  { id := pyShow story.sid,
    text := "[HN] " ++ story.title ++ " - " ++ story.text.take 200,
    url := "https://news.ycombinator.com/item?id=" ++ pyShow story.sid,
    source := "Hacker News" }

/-- The identifiers for which a detail fetch is scheduled (lines 119-125):
the first `limit` listing ids whose item URL passes the safety gate. -/
def hnSched (env : Env) (limit : Nat) (ids : List Int) : List Int :=
  (ids.take limit).filter (fun sid => is_safe_url env.dns (hnItemUrl sid))

/-- The per-response processing of the result loop (lines 133-146):
skip exceptions and non-200 statuses, parse the body, keep the story if
a keyword hits.  A body that fails to parse (line 135 `r.json()` raising
inside the outer `try`) aborts the whole loop: `Except.error`.  A
returned `Except.ok l` lists the surviving records in response order. -/
def hnProcessList : List DetailResp → Except Unit (List OpportunityRecord)
  | [] => Except.ok []
  | DetailResp.exn :: rest => hnProcessList rest
  | DetailResp.resp s body :: rest =>
    if s = 200 then
      match body with
      | Except.error _ => Except.error ()
      | Except.ok story =>
        match hnProcessList rest with
        | Except.error _ => Except.error ()
        | Except.ok l =>
          Except.ok (if keywordHit story then hnRecord story :: l else l)
    else hnProcessList rest

/-- The `except` boundary of lines 149-151: an escaped exception turns
the whole harvest into `[]`. -/
def hnExtract : Except Unit (List OpportunityRecord) → List OpportunityRecord
  | Except.error _ => []
  | Except.ok l => l

/-- The per-item skip/keep function implicit in the loop of lines
133-146, used to characterize an abort-free run of `hnProcessList`. -/
def hnKeep : DetailResp → Option OpportunityRecord
  | DetailResp.exn => none
  | DetailResp.resp s body =>
    if s = 200 then
      match body with
      | Except.error _ => none
      | Except.ok story =>
        if keywordHit story then some (hnRecord story) else none
    else none

/-- The harvester `scrape_hn_opportunities` (lines 109-151).  The leading `Ev.sleep`
is the jitter of line 116; the listing request is issued (and traced)
whether or not its body later parses, which is why the `Except.error`
listing case still records the call. -/
def scrape_hn_opportunities (env : Env) (limit : Nat) :
    List OpportunityRecord × List Ev :=
  if is_safe_url env.dns hnListingUrl then
    match env.hnListing with
    | Except.error _ => ([], [Ev.sleep, Ev.call hnListingUrl true])
    | Except.ok ids =>
      (hnExtract (hnProcessList ((hnSched env limit ids).map env.hnDetail)),
       Ev.sleep :: Ev.call hnListingUrl true ::
         (hnSched env limit ids).map (fun sid => Ev.call (hnItemUrl sid) true))
  else ([], [])

/-! ### 3. Engine B: Reddit (src/main.py lines 154-215) -/

/-- The listing URL of line 160, `"https://www.reddit.com/r/" + clean_sub + "/hot.json?limit=25"`. -/
def redditUrl (clean : String) : Url :=
  { scheme := "https", hostname := some ("www.reddit.com"),
    path := "/r/" ++ clean ++ "/hot.json?limit=25" }

/-- The per-post filter and record construction of lines 183-196. -/
def parsePosts (clean : String) (posts : List Post) : List OpportunityRecord :=
  posts.filterMap (fun p =>
    if p.stickied || p.title.length < 10 then none
    else some
      { id := p.pid,
        text := "[Reddit r/" ++ clean ++ "] " ++ p.title ++ " - " ++
                  p.selftext.take 200,
        url := "https://reddit.com" ++ p.permalink,
        source := "Reddit r/" ++ clean })

/-- Classifies one attempt's outcome (lines 178-205): `some posts` is a
status-200 response whose body parsed (the only branch that sets
`success = True` and breaks); everything else—request exception,
non-200 status, or a 200 body on which `resp.json()` raises—falls
through to the retry logic. -/
def attemptResult : RedditResp → Option (List Post)
  | RedditResp.exn => none
  | RedditResp.resp status body =>
    if status = 200 then
      match body with
      | Except.ok posts => some posts
      | Except.error _ => none
    else none

/-- The retry loop `for attempt in range(1, attempts + 1)` of lines
169-210, with `fuel` the number of attempts remaining and `attempt` the
1-based attempt index.  On failure, the backoff sleep of lines 207-210
happens only when another attempt follows (`attempt < attempts`, i.e.
remaining fuel nonzero). -/
def redditTry (env : Env) (sub : String) : Nat → Nat → List OpportunityRecord × List Ev
  | 0, _ => ([], [])
  | fuel + 1, attempt =>
    match attemptResult (env.reddit sub attempt) with
    | some posts => (parsePosts sub posts, [Ev.call (redditUrl sub) true])
    | none =>
      if fuel = 0 then ([], [Ev.call (redditUrl sub) true])
      else
        ((redditTry env sub fuel (attempt + 1)).1,
         Ev.call (redditUrl sub) true :: Ev.sleep ::
           (redditTry env sub fuel (attempt + 1)).2)

/-- One loop body of `scrape_reddit_rss` for a single subreddit (lines
157-213): strip the name, gate the listing URL (skipping the community
entirely when unsafe), then run at most 3 attempts. -/
def redditCommunity (env : Env) (sub : String) : List OpportunityRecord × List Ev :=
  if is_safe_url env.dns (redditUrl (pyStrip sub)) then
    redditTry env (pyStrip sub) 3 1
  else ([], [])

/-- The harvester `scrape_reddit_rss` (lines 154-215): sequential accumulation over
the subreddit list. -/
def scrape_reddit_rss (env : Env) : List String → List OpportunityRecord × List Ev
  | [] => ([], [])
  | sub :: rest =>
    ((redditCommunity env sub).1 ++ (scrape_reddit_rss env rest).1,
     (redditCommunity env sub).2 ++ (scrape_reddit_rss env rest).2)

/-! ### 4. Engine C: app reviews (src/main.py lines 218-349)

None of the requests issued here is preceded by an `is_safe_url` check
in the source, so every `Ev.call` below carries `gated := false`.  The
`google_play_scraper` library calls (`play_app`, `play_reviews`) perform
their own HTTPS requests to play.google.com; they are represented by
one `Ev.call` each with a representative URL. -/

/-- The search URL of line 220, `"https://play.google.com/store/search?q=" + query + "&c=apps"`. -/
def gpSearchUrl (query : String) : Url :=
  { scheme := "https", hostname := some ("play.google.com"),
    path := "/store/search?q=" ++ query ++ "&c=apps" }

/-- The details page fetched by the `play_app` library call (line 252). -/
def gpDetailsUrl (aid : String) : Url :=
  { scheme := "https", hostname := some ("play.google.com"),
    path := "/store/apps/details?id=" ++ aid }

/-- The review listing fetched by the `play_reviews` library call
(lines 304-310). -/
def gpReviewsUrl (aid : String) : Url :=
  { scheme := "https", hostname := some ("play.google.com"),
    path := "/store/apps/reviews?id=" ++ aid }

/-- The URL `"https://itunes.apple.com/search"` with the params of line 271. -/
def iosSearchUrl (term : String) : Url :=
  { scheme := "https", hostname := some ("itunes.apple.com"),
    path := "/search?term=" ++ term ++ "&entity=software&limit=1" }

/-- The iOS review feed URL of line 324. -/
def iosFeedUrl (aid : String) : Url :=
  { scheme := "https", hostname := some ("itunes.apple.com"),
    path := "/us/rss/customerreviews/id=" ++ aid ++
            "/sortBy=mostRecent/json" }

/-- The helper `search_google_play_manual` (lines 218-233).  The oracle returns the
status code and the result of the regex scan of the body; `Except.error`
is a request exception.  All failure modes collapse to `none`. -/
def search_google_play_manual (env : Env) (query : String) :
    Option String × List Ev :=
  (match env.gpSearch query with
   | Except.error _ => none
   | Except.ok (status, m) => if status = 200 then m else none,
   [Ev.call (gpSearchUrl query) false])

/-- The `try_android` helper of `find_app` (lines 243-265): manual
search, then a `play_app` detail lookup for the display title, falling
back to the query name when that lookup raises. -/
def try_android (env : Env) (name : String) : Option AppRes × List Ev :=
  match search_google_play_manual env name with
  | (none, tr) => (none, tr)
  | (some gpId, tr) =>
    (some
      { platform := "android", aid := gpId,
        title := match env.playApp gpId with
                 | Except.error _ => name
                 | Except.ok t => t,
        url := "https://play.google.com/store/apps/details?id=" ++ gpId },
     tr ++ [Ev.call (gpDetailsUrl gpId) false])

/-- The `try_ios` helper of `find_app` (lines 268-284): iTunes search,
first result if any.  `Except.error` covers a request exception, a
malformed JSON body, or missing keys—each lands in the `except` clause
and yields `none`. -/
def try_ios (env : Env) (name : String) : Option AppRes × List Ev :=
  (match env.iosSearch name with
   | Except.error _ => none
   | Except.ok none => none
   | Except.ok (some first) =>
     some
       { platform := "ios", aid := toString first.trackId,
         title := first.trackName, url := first.trackViewUrl },
   [Ev.call (iosSearchUrl name) false])

/-- The resolver `find_app` (lines 235-291): route to `try_ios` when the preference
is `"ios"`, otherwise to `try_android`. -/
def find_app (env : Env) (name pf : String) : Option AppRes × List Ev :=
  if pf = "ios" then try_ios env name else try_android env name

/-- The Android record loop of lines 312-320. -/
def androidRecs (info : AppRes) (items : List PlayReview) :
    List OpportunityRecord :=
  items.filterMap (fun r =>
    if r.content.length > 10 then
      some
        { id := r.reviewId,
          text := "[Android Review] " ++ r.content.take 300,
          url := info.url,
          source := "Google Play (" ++ info.title ++ ")" }
    else none)

/-- The iOS record loop of lines 329-344. -/
def iosRecs (info : AppRes) (items : List IosEntry) : List OpportunityRecord :=
  items.filterMap (fun e =>
    if !e.hasAuthor then none
    else if (e.etitle ++ " - " ++ e.content).length > 10 then
      some
        { id := e.eid,
          text := "[iOS Review " ++ e.rating ++ "/5] " ++
                    (e.etitle ++ " - " ++ e.content).take 300,
          url := info.url,
          source := "App Store (" ++ info.title ++ ")" }
    else none)

/-- The harvester `scrape_reviews` (lines 293-349).  A `none` result signals "app not found"
(line 297, surfaced as 404); otherwise the fetch stage runs inside a
`try` whose `except` merely logs, so an interrupted fetch
(`FetchOutcome.err processed`) still returns the records accumulated
from `processed`—exactly what an uninterrupted fetch of `processed`
would have returned. -/
def scrape_reviews (env : Env) (name pf : String) :
    Option (List OpportunityRecord) × List Ev :=
  match find_app env name pf with
  | (none, tr) => (none, tr)
  | (some info, tr) =>
    if info.platform = "android" then
      (some (androidRecs info
        (match env.playReviews info.aid with
         | FetchOutcome.ok l => l
         | FetchOutcome.err p => p)),
       tr ++ [Ev.call (gpReviewsUrl info.aid) false])
    else if info.platform = "ios" then
      (some (iosRecs info
        (match env.iosFeed info.aid with
         | FetchOutcome.ok l => l
         | FetchOutcome.err p => p)),
       tr ++ [Ev.call (iosFeedUrl info.aid) false])
    else (some [], tr)

/-- Overrides both review-fetch oracles of an environment, leaving the
resolution-stage oracles untouched (used to compare an interrupted
fetch with an uninterrupted one). -/
def setFetch (env : Env) (o : FetchOutcome PlayReview)
    (o2 : FetchOutcome IosEntry) : Env :=
  { env with playReviews := fun _ => o, iosFeed := fun _ => o2 }

/-! ### 5. Intelligence layer (src/main.py lines 352-412) -/

/-- The line `f"ID: {i} | Content: {item['text']}"` (line 360). -/
def inputLine (i : Nat) (item : OpportunityRecord) : String :=
  "ID: " ++ toString i ++ " | Content: " ++ item.text

/-- The newline joiner of line 362. -/
def joinSep : String := "\n"

/-- The payload string submitted to the LLM: built from
`collected_data[:30]` (lines 357-362). -/
def dataStr (collected : List OpportunityRecord) : String :=
  String.intercalate joinSep
    ((collected.take 30).enum.map (fun p => inputLine p.1 p.2))

/-- Fallback record for the guarded positional access of line 397
(the guard `0 <= idx < len(collected_data)` makes it unreachable). -/
def dfltRecord : OpportunityRecord :=
  { id := "", text := "", url := "", source := "" }

/-- The per-idea enrichment of lines 393-406.  A `ValueError` from
`int(idea.get('source_id', -1))` is caught (`Except.ok none`: the idea
is skipped); an out-of-range index fails the guard and is skipped; a
`KeyError` from `idea['name']` / `idea['pitch']` is NOT caught by the
per-idea `except (ValueError, IndexError)` and escapes
(`Except.error`). -/
def enrichOne (collected : List OpportunityRecord) (idea : RawIdea) :
    Except Unit (Option Enhanced) :=
  match idea.source_id with
  | Except.error _ => Except.ok none
  | Except.ok idx =>
    if 0 ≤ idx ∧ idx < (collected.length : Int) then
      match idea.name, idea.pitch with
      | some n, some p =>
        Except.ok (some
          { name := n, pitch := p,
            source_text := (collected.getD idx.toNat dfltRecord).text,
            source_url := (collected.getD idx.toNat dfltRecord).url,
            source_origin := (collected.getD idx.toNat dfltRecord).source })
      | _, _ => Except.error ()
    else Except.ok none

/-- The enrichment loop of lines 391-406 over the parsed idea list;
`Except.error` reproduces an escaped `KeyError` aborting the loop. -/
def enrichAll (collected : List OpportunityRecord) :
    List RawIdea → Except Unit (List Enhanced)
  | [] => Except.ok []
  | idea :: rest =>
    match enrichOne collected idea with
    | Except.error _ => Except.error ()
    | Except.ok none => enrichAll collected rest
    | Except.ok (some e) =>
      match enrichAll collected rest with
      | Except.error _ => Except.error ()
      | Except.ok l => Except.ok (e :: l)

/-- The adapter `generate_business_ideas` (lines 352-412).  The `llm` oracle covers
the chat-completion call plus the `json.loads(...)["ideas"]` parse; any
exception there, or one escaping the enrichment loop, reaches the outer
`except` and yields `[]`. -/
def generate_business_ideas (env : Env) (collected : List OpportunityRecord) :
    List Enhanced :=
  if collected.isEmpty then []
  else
    match env.llm (dataStr collected) with
    | Except.error _ => []
    | Except.ok ideas =>
      match enrichAll collected ideas with
      | Except.error _ => []
      | Except.ok l => l

/-! ### 6. The `/generate-ideas` route (src/main.py lines 429-475) -/

/-- Error message of line 434. -/
def invalidJsonMsg : String := "Invalid JSON payload"

/-- Error message of line 447. -/
def emptySubsMsg : String := "Subreddits list cannot be empty for Reddit source"

/-- Error message of line 459. -/
def emptyAppMsg : String := "App Name cannot be empty for Reviews source"

/-- Error message of line 466:
`f"App '{app_name}' not found in {platform} store(s)."`. -/
def notFoundMsg (app_name platform : String) : String :=
  "App \x27" ++ app_name ++ "\x27 not found in " ++ platform ++ " store(s)."

/-- The default subreddit substitution of line 452. -/
def defaultSubs : List String := ["SaaS", "startups"]

/-- The test `not subs or (isinstance(subs, list) and not any(subs))` (line 446)
for a string list: true iff the list is empty or all entries are falsy
(empty strings). -/
def allFalsy (l : List String) : Bool := l.all (fun s => s == "")

/-- The reviews branch and final assembly (lines 456-467), given the
records and trace accumulated by the earlier branches.  The `Except`
error carries the HTTP status, message, and the trace of network calls
already issued when the early `return` fires. -/
def afterReddit (env : Env) (d : ReqData)
    (collected : List OpportunityRecord) (tr : List Ev) :
    Except (Nat × String × List Ev) (List OpportunityRecord × List Ev) :=
  if d.source = "reviews" then
    if pyStrip d.app_name = "" then Except.error (400, emptyAppMsg, tr)
    else
      match scrape_reviews env d.app_name d.platform with
      | (none, tr2) =>
        Except.error (404, notFoundMsg d.app_name d.platform, tr ++ tr2)
      | (some l, tr2) => Except.ok (collected ++ l, tr ++ tr2)
  else Except.ok (collected, tr)

/-- The harvest-selection part of `generate` (lines 436-467): the HN
branch, then the Reddit branch with its empty-list validation (line
446) and default substitution (line 452), then `afterReddit`. -/
def generateCore (env : Env) (d : ReqData) :
    Except (Nat × String × List Ev) (List OpportunityRecord × List Ev) :=
  if d.source = "reddit" ∨ d.source = "all" then
    if d.source = "reddit" ∧ allFalsy d.subreddits = true then
      Except.error (400, emptySubsMsg,
        (if d.source = "hn" ∨ d.source = "all" then
           scrape_hn_opportunities env 20 else ([], [])).2)
    else
      afterReddit env d
        ((if d.source = "hn" ∨ d.source = "all" then
            scrape_hn_opportunities env 20 else ([], [])).1 ++
         (scrape_reddit_rss env
            (if d.subreddits.isEmpty then defaultSubs else d.subreddits)).1)
        ((if d.source = "hn" ∨ d.source = "all" then
            scrape_hn_opportunities env 20 else ([], [])).2 ++
         (scrape_reddit_rss env
            (if d.subreddits.isEmpty then defaultSubs else d.subreddits)).2)
  else
    afterReddit env d
      (if d.source = "hn" ∨ d.source = "all" then
         scrape_hn_opportunities env 20 else ([], [])).1
      (if d.source = "hn" ∨ d.source = "all" then
         scrape_hn_opportunities env 20 else ([], [])).2

/-- The `generate` route handler (lines 429-475): reject a missing/falsy
JSON payload with 400, harvest per the source selector, then synthesize
and assemble `{raw_count, ideas}`. -/
def generate (env : Env) (data : Option ReqData) : Resp × List Ev :=
  match data with
  | none => (Resp.err 400 invalidJsonMsg, [])
  | some d =>
    match generateCore env d with
    | Except.error e => (Resp.err e.1 e.2.1, e.2.2)
    | Except.ok r =>
      (Resp.ok r.1.length (generate_business_ideas env r.1), r.2)

/-! ### 7. Trace vocabulary and concrete test environments -/

/-- An event is "gated" when it is a sleep or a network call whose URL
passed the safety gate before the request was issued. -/
def evGated : Ev → Bool
  | Ev.call _ g => g
  | Ev.sleep => true

/-- An event is "ungated" when it is a sleep or a network call whose URL
was never checked by the safety gate. -/
def evUngated : Ev → Bool
  | Ev.call _ g => !g
  | Ev.sleep => true

/-- Number of network requests in a trace. -/
def countCalls : List Ev → Nat
  | [] => 0
  | Ev.call _ _ :: t => countCalls t + 1
  | Ev.sleep :: t => countCalls t

/-- A well-formed retry trace: a request, then optionally one backoff
sleep followed by another such trace.  It begins with a request, has
exactly one sleep between consecutive requests, and never ends in a
sleep. -/
def isRetryTrace : List Ev → Bool
  | [Ev.call _ _] => true
  | Ev.call _ _ :: Ev.sleep :: rest => isRetryTrace rest
  | _ => false

/-- The canonical shape of the trace a retry loop produces: `i` failed
attempts each followed by a sleep, then one final attempt. -/
def retryTrace (u : Url) : Nat → List Ev
  | 0 => [Ev.call u true]
  | i + 1 => Ev.call u true :: Ev.sleep :: retryTrace u i

/-- A public IP address (neither private nor loopback). -/
def pubIP : IPAddr := { is_private := false, is_loopback := false }

/-- A quiescent world: DNS resolves everything to one public address,
every endpoint fails or returns nothing, the LLM raises. -/
def baseEnv : Env :=
  { dns := fun _ => Except.ok [pubIP],
    hnListing := Except.ok [],
    hnDetail := fun _ => DetailResp.exn,
    reddit := fun _ _ => RedditResp.exn,
    gpSearch := fun _ => Except.error (),
    playApp := fun _ => Except.error (),
    iosSearch := fun _ => Except.ok none,
    playReviews := fun _ => FetchOutcome.ok [],
    iosFeed := fun _ => FetchOutcome.ok [],
    llm := fun _ => Except.error () }

/-- A world for the C6 counterexample: attempt 1 on any subreddit
returns HTTP 200 with a body on which `resp.json()` raises; later
attempts raise outright. -/
def okStatusBadBodyEnv : Env :=
  { baseEnv with
    reddit := fun _ a =>
      if a = 1 then RedditResp.resp 200 (Except.error ())
      else RedditResp.exn }

/-- A filler aggregated record for the C2 counterexample. -/
def recA : OpportunityRecord :=
  { id := "a", text := "A", url := "ua", source := "sa" }

/-- The 31st aggregated record for the C2 counterexample; its text marks
that it was never part of the submitted 30-record prefix. -/
def recB : OpportunityRecord :=
  { id := "b", text := "UNSUBMITTED", url := "ub", source := "sb" }

/-- A 31-record aggregated list: indices 0-29 are submitted to the LLM,
index 30 is not. -/
def longCollected : List OpportunityRecord :=
  List.replicate 30 recA ++ [recB]

/-- An idea whose `source_id` (30) points one past the submitted
prefix. -/
def outOfPrefixIdea : RawIdea :=
  { name := some ("n"), pitch := some ("p"), source_id := Except.ok 30 }

/-- A world whose LLM replies with exactly `outOfPrefixIdea`. -/
def outOfPrefixEnv : Env :=
  { baseEnv with llm := fun _ => Except.ok [outOfPrefixIdea] }

/-- An idea that the enrichment loop drops (its `source_id` raises
`ValueError`). -/
def valueErrorIdea : RawIdea :=
  { name := none, pitch := none, source_id := Except.error () }

/-- A subreddit-request oracle for the C5 witness: community "a" always
raises, community "b" succeeds on the first attempt with one post. -/
def goodPost : Post :=
  { pid := "p1", title := "a long enough title", selftext := "body",
    stickied := false, permalink := "/r/b/p1" }

/-- A world where community "a" always fails and community "b" succeeds
immediately. -/
def abEnv : Env :=
  { baseEnv with
    reddit := fun sub _ =>
      if sub = "b" then RedditResp.resp 200 (Except.ok [goodPost])
      else RedditResp.exn }

/-- A world whose HN listing returns three story ids, where story 2's
detail fetch raises and stories 1 and 3 parse to keyword-bearing
stories. -/
def hnStoryOf (sid : Int) : Story :=
  { sid := some sid, title := "how to do x", text := "b" }

/-- HN witness world: listing `[1, 2, 3]`, detail 2 raises, others
return 200 with a parseable keyword-bearing story. -/
def hnEnv : Env :=
  { baseEnv with
    hnListing := Except.ok [1, 2, 3],
    hnDetail := fun sid =>
      if sid = 2 then DetailResp.exn
      else DetailResp.resp 200 (Except.ok (hnStoryOf sid)) }

/-- A found Android app resolution for the C4/C10 witnesses. -/
def foundAppEnv : Env :=
  { baseEnv with
    gpSearch := fun _ => Except.ok (200, some ("com.example.app")),
    playApp := fun _ => Except.ok ("Example") }

/-- Request data for the witnesses, varied per claim by structure
update. -/
def baseReq : ReqData :=
  { source := "all", subreddits := [], app_name := "", platform := "android" }

/-- The failure modes the spec declares isolated for a single HN detail
fetch: the awaited task raised, or the response status is not 200. -/
def hnFailure (r : DetailResp) : Prop :=
  r = DetailResp.exn ∨ ∃ s b, r = DetailResp.resp s b ∧ s ≠ 200

/-- A returned idea the enrichment loop of lines 392-406 skips: its
`source_id` raises `ValueError`, or parses to an index outside the range
of the FULL aggregated list (the guard of line 396). -/
def droppedIdea (collected : List OpportunityRecord) (idea : RawIdea) : Prop :=
  match idea.source_id with
  | Except.error _ => True
  | Except.ok idx => idx < 0 ∨ (collected.length : Int) ≤ idx

/-! ### Helper lemmas -/

lemma hostAllowed_iff (h : String) :
    hostAllowed h = true ↔
      ∃ d ∈ ALLOWED_DOMAINS, h = d ∨ strEndsWith h ("." ++ d) = true := by
  simp [hostAllowed, List.any_eq_true]

lemma all_ipOk_iff (ips : List IPAddr) :
    ips.all ipOk = true ↔
      ∀ ip ∈ ips, ip.is_private = false ∧ ip.is_loopback = false := by
  simp [List.all_eq_true, ipOk]

/-! ### C3: the safety gate -/

/-- C3 (confirmed): `is_safe_url` is a total function (so it never
raises), and it returns `true` iff the URL's scheme is `https`, it has a
hostname that—after the lowercasing `urlparse`/`.lower()` apply—exactly
equals an allowlisted domain or ends with `"."` followed by one, and the
hostname resolves to a list of addresses none of which is private or
loopback.  A missing hostname or a failing resolution (the
`Except.error` branches, i.e. the Python `except` clause) yields
`false`. -/
theorem safety_gate_characterization :
    ∀ (dns : String → Except Unit (List IPAddr)) (u : Url),
      is_safe_url dns u = true ↔
        (u.scheme = "https" ∧ ∃ h, u.hostname = some h ∧
          (∃ d ∈ ALLOWED_DOMAINS,
            lowerStr h = d ∨ strEndsWith (lowerStr h) ("." ++ d) = true) ∧
          ∃ ips, dns (lowerStr h) = Except.ok ips ∧
            ∀ ip ∈ ips, ip.is_private = false ∧ ip.is_loopback = false) := by
  intro dns u
  by_cases hs : u.scheme = "https"
  · cases hh : u.hostname with
    | none =>
      have hval : is_safe_url dns u = false := by simp [is_safe_url, hs, hh]
      rw [hval]
      simp only [Bool.false_eq_true, false_iff]
      rintro ⟨-, h2, hh2, -⟩
      exact Option.noConfusion hh2
    | some h =>
      by_cases ha : hostAllowed (lowerStr h) = true
      · cases hd : dns (lowerStr h) with
        | error e =>
          have hval : is_safe_url dns u = false := by
            simp [is_safe_url, hs, hh, ha, hd]
          rw [hval]
          simp only [Bool.false_eq_true, false_iff]
          rintro ⟨-, h2, hh2, -, ips2, hd2, -⟩
          injection hh2 with e2
          subst e2
          rw [hd] at hd2
          exact Except.noConfusion hd2
        | ok ips =>
          have hval : is_safe_url dns u = ips.all ipOk := by
            simp [is_safe_url, hs, hh, ha, hd]
          rw [hval, all_ipOk_iff]
          constructor
          · intro hall
            exact ⟨hs, h, rfl, (hostAllowed_iff _).mp ha, ips, hd, hall⟩
          · rintro ⟨-, h2, hh2, -, ips2, hd2, hall2⟩
            injection hh2 with e2
            subst e2
            rw [hd] at hd2
            injection hd2 with e3
            subst e3
            exact hall2
      · have ha2 : hostAllowed (lowerStr h) = false := by
          cases hb : hostAllowed (lowerStr h)
          · rfl
          · exact absurd hb ha
        have hval : is_safe_url dns u = false := by
          simp [is_safe_url, hs, hh, ha2]
        rw [hval]
        simp only [Bool.false_eq_true, false_iff]
        rintro ⟨-, h2, hh2, hal, -⟩
        injection hh2 with e2
        subst e2
        exact absurd ((hostAllowed_iff _).mpr hal) ha
  · have hval : is_safe_url dns u = false := by simp [is_safe_url, hs]
    rw [hval]
    simp only [Bool.false_eq_true, false_iff]
    rintro ⟨hsch, -⟩
    exact hs hsch

/-- C3 witness: the characterization applied to a concrete resolver and
URL (an allowlisted HTTPS host resolving to one public address), where
the gate indeed returns `true`. -/
theorem safety_gate_characterization_witness :
    is_safe_url baseEnv.dns (redditUrl ("SaaS")) = true ↔
      ((redditUrl ("SaaS")).scheme = "https" ∧
        ∃ h, (redditUrl ("SaaS")).hostname = some h ∧
          (∃ d ∈ ALLOWED_DOMAINS,
            lowerStr h = d ∨ strEndsWith (lowerStr h) ("." ++ d) = true) ∧
          ∃ ips, baseEnv.dns (lowerStr h) = Except.ok ips ∧
            ∀ ip ∈ ips, ip.is_private = false ∧ ip.is_loopback = false) :=
  safety_gate_characterization baseEnv.dns (redditUrl ("SaaS"))

/-! ### C1: the App-Review harvester bypasses the safety gate -/

/-- C1 (code_bug): evaluating `scrape_reviews` at concrete inputs shows
the App-Review harvester issuing its network requests with no preceding
`is_safe_url` check.  On the Android path it issues three requests (the
Play store search of `search_google_play_manual`, the `play_app` detail
lookup, and the `play_reviews` listing); on the iOS path it issues the
iTunes search request.  Every one of them is ungated—contradicting the
safety-gate invariant, and the evident intent of
`SecurityManager.ALLOWED_DOMAINS`, which lists `itunes.apple.com` and
`apps.apple.com` precisely so such calls could pass the gate. -/
theorem app_review_harvester_calls_ungated :
    ((scrape_reviews foundAppEnv ("x") ("android")).2).all evUngated = true ∧
    countCalls (scrape_reviews foundAppEnv ("x") ("android")).2 = 3 ∧
    ((scrape_reviews baseEnv ("x") ("ios")).2).all evUngated = true ∧
    countCalls (scrape_reviews baseEnv ("x") ("ios")).2 = 1 :=
  ⟨rfl, rfl, rfl, rfl⟩

/-! ### C9: unrecognized source selectors -/

/-- C9 (confirmed): a request whose source selector is none of "hn",
"reddit", "reviews", "all" skips every harvester branch of `generate`
(no network events at all) and yields the success payload with
`raw_count = 0` and no ideas, not a 400-class error. -/
theorem unknown_source_empty_success :
    ∀ (env : Env) (d : ReqData),
      d.source ≠ "hn" → d.source ≠ "reddit" →
      d.source ≠ "reviews" → d.source ≠ "all" →
      generate env (some d) = (Resp.ok 0 [], []) := by
  intro env d h1 h2 h3 h4
  simp [generate, generateCore, afterReddit, h1, h2, h3, h4,
    generate_business_ideas]

/-- C9 witness: the claim's theorem applied at the concrete selector
"rss". -/
theorem unknown_source_empty_success_witness :
    generate baseEnv (some { baseReq with source := "rss" }) =
      (Resp.ok 0 [], []) :=
  unknown_source_empty_success baseEnv { baseReq with source := "rss" }
    (by decide) (by decide) (by decide) (by decide)

/-! ### C7: empty community list vs. the "all" default -/

/-- C7 (confirmed): an explicit "reddit" request with an empty community
list is rejected with the 400-class `emptySubsMsg` and an empty event
trace (no harvester ran, no default was substituted), while an "all"
request with no community list behaves exactly as the same request with
the fixed non-empty default list `defaultSubs = ["SaaS", "startups"]`
substituted. -/
theorem reddit_empty_rejected_all_defaults :
    ∀ (env : Env) (d : ReqData),
      (d.source = "reddit" → d.subreddits = [] →
        generate env (some d) = (Resp.err 400 emptySubsMsg, [])) ∧
      (d.source = "all" → d.subreddits = [] →
        defaultSubs ≠ [] ∧
        generate env (some d) =
          generate env (some { d with subreddits := defaultSubs })) := by
  intro env d
  constructor
  · intro hsrc hsubs
    simp [generate, generateCore, hsrc, hsubs, allFalsy]
  · intro hsrc hsubs
    refine ⟨by decide, ?_⟩
    simp [generate, generateCore, afterReddit, hsrc, hsubs, allFalsy,
      defaultSubs]

/-- C7 witness: both halves at concrete requests over the quiescent
environment. -/
theorem reddit_empty_rejected_all_defaults_witness :
    (generate baseEnv (some { baseReq with source := "reddit" }) =
        (Resp.err 400 emptySubsMsg, [])) ∧
    (defaultSubs ≠ [] ∧
      generate baseEnv (some baseReq) =
        generate baseEnv (some { baseReq with subreddits := defaultSubs })) :=
  ⟨(reddit_empty_rejected_all_defaults baseEnv
      { baseReq with source := "reddit" }).1 rfl rfl,
   (reddit_empty_rejected_all_defaults baseEnv baseReq).2 rfl rfl⟩

/-! ### C4: not-found vs. zero qualifying reviews -/

/-- C4 (confirmed): on a "reviews" request with a non-empty app name,
failure of `find_app` makes `scrape_reviews` return the distinguished
`none` (not `some []`), and the endpoint replies with the 404 message;
while a successful resolution that yields zero qualifying records
(`some []`) produces the success payload with `raw_count = 0`. -/
theorem review_not_found_vs_empty :
    ∀ (env : Env) (d : ReqData),
      d.source = "reviews" → pyStrip d.app_name ≠ "" →
      ((find_app env d.app_name d.platform).1 = none →
        (scrape_reviews env d.app_name d.platform).1 = none ∧
        generate env (some d) =
          (Resp.err 404 (notFoundMsg d.app_name d.platform),
           (scrape_reviews env d.app_name d.platform).2)) ∧
      (∀ tr, scrape_reviews env d.app_name d.platform = (some [], tr) →
        generate env (some d) = (Resp.ok 0 [], tr)) := by
  intro env d hsrc hname
  constructor
  · intro hfind
    rcases hfa : find_app env d.app_name d.platform with ⟨ofa, tfa⟩
    rw [hfa] at hfind
    simp only at hfind
    subst hfind
    constructor
    · simp [scrape_reviews, hfa]
    · simp [generate, generateCore, afterReddit, hsrc, hname,
        scrape_reviews, hfa]
  · intro tr hsr
    simp [generate, generateCore, afterReddit, hsrc, hname, hsr,
      generate_business_ideas]

/-- C4 witness: at concrete worlds, the not-found branch (Play search
yields no id) replies 404 with the harvester's one-call trace, and the
found-but-zero-reviews branch replies `raw_count 0` with the
harvester's three-call trace. -/
theorem review_not_found_vs_empty_witness :
    generate baseEnv
        (some { baseReq with source := "reviews", app_name := "x" }) =
      (Resp.err 404 (notFoundMsg ("x") ("android")),
       [Ev.call (gpSearchUrl ("x")) false]) ∧
    generate foundAppEnv
        (some { baseReq with source := "reviews", app_name := "x" }) =
      (Resp.ok 0 [],
       [Ev.call (gpSearchUrl ("x")) false,
        Ev.call (gpDetailsUrl ("com.example.app")) false,
        Ev.call (gpReviewsUrl ("com.example.app")) false]) := by
  constructor
  · exact ((review_not_found_vs_empty baseEnv
      { baseReq with source := "reviews", app_name := "x" }
      rfl (by decide)).1 rfl).2
  · exact (review_not_found_vs_empty foundAppEnv
      { baseReq with source := "reviews", app_name := "x" }
      rfl (by decide)).2 _ rfl

/-! ### C10: scrape_reviews totality and fetch-failure behavior -/

lemma find_app_setFetch (env : Env) (o : FetchOutcome PlayReview)
    (o2 : FetchOutcome IosEntry) (name pf : String) :
    find_app (setFetch env o o2) name pf = find_app env name pf := rfl

/-- C10 (confirmed): `scrape_reviews` is total (the embedding is a plain
function—every Python exception path is a case of it), it returns `none`
exactly when `find_app` returns `none`, and when resolution succeeds a
review-fetch stage interrupted by an exception after processing a prefix
`p` (`FetchOutcome.err p`) produces exactly the records that an
uninterrupted fetch returning `p` (`FetchOutcome.ok p`) would—so a
fetch-stage failure is indistinguishable from a found app whose feed
held just those (possibly zero) reviews. -/
theorem scrape_reviews_none_iff_and_err_eq_ok :
    ∀ (env : Env) (name pf : String),
      ((scrape_reviews env name pf).1 = none ↔
        (find_app env name pf).1 = none) ∧
      (∀ p q,
        (scrape_reviews (setFetch env (FetchOutcome.err p)
            (FetchOutcome.err q)) name pf).1 =
        (scrape_reviews (setFetch env (FetchOutcome.ok p)
            (FetchOutcome.ok q)) name pf).1) := by
  intro env name pf
  rcases hfa : find_app env name pf with ⟨ofa, tfa⟩
  cases ofa with
  | none =>
    constructor
    · simp [scrape_reviews, hfa]
    · intro p q
      simp [scrape_reviews, find_app_setFetch, hfa]
  | some info =>
    constructor
    · by_cases ha : info.platform = "android"
      · simp [scrape_reviews, hfa, ha]
      · by_cases hi : info.platform = "ios"
        · simp [scrape_reviews, hfa, ha, hi]
        · simp [scrape_reviews, hfa, ha, hi]
    · intro p q
      simp only [scrape_reviews, find_app_setFetch, hfa]
      by_cases ha : info.platform = "android"
      · simp [ha, setFetch]
      · by_cases hi : info.platform = "ios"
        · simp [ha, hi, setFetch]
        · simp [ha, hi]

/-- C10 witness: the equivalence and the interrupted-fetch equation at a
concrete world and inputs. -/
theorem scrape_reviews_none_iff_and_err_eq_ok_witness :
    ((scrape_reviews baseEnv ("x") ("ios")).1 = none ↔
      (find_app baseEnv ("x") ("ios")).1 = none) ∧
    ((scrape_reviews (setFetch baseEnv (FetchOutcome.err [])
        (FetchOutcome.err [])) ("x") ("ios")).1 =
      (scrape_reviews (setFetch baseEnv (FetchOutcome.ok [])
        (FetchOutcome.ok [])) ("x") ("ios")).1) :=
  ⟨(scrape_reviews_none_iff_and_err_eq_ok baseEnv ("x") ("ios")).1,
   (scrape_reviews_none_iff_and_err_eq_ok baseEnv ("x") ("ios")).2 [] []⟩

/-! ### Retry-loop lemmas (Engine B) -/

lemma countCalls_retryTrace (u : Url) : ∀ i, countCalls (retryTrace u i) = i + 1 := by
  intro i
  induction i with
  | zero => rfl
  | succ n ih => simp [retryTrace, countCalls, ih]

lemma isRetryTrace_retryTrace (u : Url) :
    ∀ i, isRetryTrace (retryTrace u i) = true := by
  intro i
  induction i with
  | zero => rfl
  | succ n ih => simpa [retryTrace, isRetryTrace] using ih

lemma retryTrace_allGated (u : Url) :
    ∀ i, (retryTrace u i).all evGated = true := by
  intro i
  induction i with
  | zero => rfl
  | succ n ih => simpa [retryTrace, evGated] using ih

/-- A successful attempt (status 200, parseable body) ends the loop at
once: one request, no sleep, the parsed records. -/
lemma redditTry_success (env : Env) (sub : String) (f a : Nat)
    (posts : List Post)
    (h : attemptResult (env.reddit sub a) = some posts) :
    redditTry env sub (f + 1) a =
      (parsePosts sub posts, [Ev.call (redditUrl sub) true]) := by
  simp [redditTry, h]

/-- A failed attempt recurses (with a backoff sleep) while fuel remains,
and otherwise ends the loop after its own request. -/
lemma redditTry_fail (env : Env) (sub : String) (f a : Nat)
    (h : attemptResult (env.reddit sub a) = none) :
    redditTry env sub (f + 1) a =
      if f = 0 then ([], [Ev.call (redditUrl sub) true])
      else
        ((redditTry env sub f (a + 1)).1,
         Ev.call (redditUrl sub) true :: Ev.sleep ::
           (redditTry env sub f (a + 1)).2) := by
  simp [redditTry, h]

/-- Whatever happens, a loop entered with positive fuel produces a
well-formed retry trace of at most `f` requests. -/
lemma redditTry_trace_shape (env : Env) (sub : String) :
    ∀ f a, 1 ≤ f →
      ∃ i, i + 1 ≤ f ∧
        (redditTry env sub f a).2 = retryTrace (redditUrl sub) i := by
  intro f
  induction f with
  | zero => intro a h; omega
  | succ n ih =>
    intro a _
    cases h : attemptResult (env.reddit sub a) with
    | some posts =>
      refine ⟨0, by omega, ?_⟩
      rw [redditTry_success env sub n a posts h]
      rfl
    | none =>
      rw [redditTry_fail env sub n a h]
      by_cases hn : n = 0
      · exact ⟨0, by omega, by simp [hn, retryTrace]⟩
      · rcases ih (a + 1) (by omega) with ⟨i, hle, htr⟩
        refine ⟨i + 1, by omega, ?_⟩
        rw [if_neg hn]
        simp only [retryTrace]
        rw [← htr]

/-- If the first `i` attempts fail and attempt `a + i` succeeds within
the fuel budget, the loop returns that attempt's parsed records after
exactly `i + 1` requests. -/
lemma redditTry_firstSuccess (env : Env) (sub : String) (posts : List Post) :
    ∀ i f a, i < f →
      (∀ j, a ≤ j → j < a + i → attemptResult (env.reddit sub j) = none) →
      attemptResult (env.reddit sub (a + i)) = some posts →
      redditTry env sub f a =
        (parsePosts sub posts, retryTrace (redditUrl sub) i) := by
  intro i
  induction i with
  | zero =>
    intro f a hf hfail hsucc
    cases f with
    | zero => omega
    | succ n =>
      rw [redditTry_success env sub n a posts (by simpa using hsucc)]
      rfl
  | succ m ih =>
    intro f a hf hfail hsucc
    cases f with
    | zero => omega
    | succ n =>
      have hfa : attemptResult (env.reddit sub a) = none :=
        hfail a (by omega) (by omega)
      rw [redditTry_fail env sub n a hfa]
      have hn : n ≠ 0 := by omega
      have hrec : redditTry env sub n (a + 1) =
          (parsePosts sub posts, retryTrace (redditUrl sub) m) := by
        refine ih n (a + 1) (by omega) ?_ ?_
        · intro j hj1 hj2
          exact hfail j (by omega) (by omega)
        · have : a + 1 + m = a + (m + 1) := by omega
          rw [this]
          exact hsucc
      simp [hn, hrec, retryTrace]

/-- If every attempt in the fuel window fails, the loop returns no
records. -/
lemma redditTry_allFail (env : Env) (sub : String) :
    ∀ f a, (∀ j, attemptResult (env.reddit sub j) = none) →
      (redditTry env sub f a).1 = [] := by
  intro f
  induction f with
  | zero => intro a _; rfl
  | succ n ih =>
    intro a hfail
    rw [redditTry_fail env sub n a (hfail a)]
    by_cases hn : n = 0
    · simp [hn]
    · rw [if_neg hn]
      exact ih (a + 1) hfail

/-- The loop consults only the oracle entries of its own subreddit. -/
lemma redditTry_congr (env env2 : Env) (sub : String)
    (hagree : ∀ x, env.reddit sub x = env2.reddit sub x) :
    ∀ f a, redditTry env sub f a = redditTry env2 sub f a := by
  intro f
  induction f with
  | zero => intro a; rfl
  | succ n ih =>
    intro a
    cases h : attemptResult (env.reddit sub a) with
    | some posts =>
      have h2 : attemptResult (env2.reddit sub a) = some posts := by
        rw [← hagree a]; exact h
      rw [redditTry_success env sub n a posts h,
        redditTry_success env2 sub n a posts h2]
    | none =>
      have h2 : attemptResult (env2.reddit sub a) = none := by
        rw [← hagree a]; exact h
      rw [redditTry_fail env sub n a h, redditTry_fail env2 sub n a h2,
        ih (a + 1)]

/-! ### C5: per-community isolation -/

/-- C5 (confirmed): the Resilient-Feed harvest is the concatenation of
the per-community results; each community's result depends only on the
DNS state and on that community's own endpoint responses; and when one
community's attempts all fail, the harvest over `[a, b]` is exactly
community `b`'s result—never an exception (the embedding is total) and
never empty merely because `a` failed. -/
theorem reddit_per_community_isolation :
    (∀ (env : Env) (subs : List String),
      (scrape_reddit_rss env subs).1 =
        (subs.map (fun s => (redditCommunity env s).1)).flatten) ∧
    (∀ (env env2 : Env) (s : String),
      (∀ x, env.reddit (pyStrip s) x = env2.reddit (pyStrip s) x) →
      env.dns = env2.dns →
      redditCommunity env s = redditCommunity env2 s) ∧
    (∀ (env : Env) (a b : String),
      (∀ j, attemptResult (env.reddit (pyStrip a) j) = none) →
      (scrape_reddit_rss env [a, b]).1 = (redditCommunity env b).1) := by
  refine ⟨?_, ?_, ?_⟩
  · intro env subs
    induction subs with
    | nil => rfl
    | cons s rest ih => simp [scrape_reddit_rss, ih]
  · intro env env2 s hagree hdns
    unfold redditCommunity
    rw [hdns, redditTry_congr env env2 (pyStrip s) hagree 3 1]
  · intro env a b hfail
    have hA : (redditCommunity env a).1 = [] := by
      unfold redditCommunity
      by_cases hg : is_safe_url env.dns (redditUrl (pyStrip a)) = true
      · rw [if_pos hg]
        exact redditTry_allFail env (pyStrip a) 3 1 hfail
      · rw [if_neg hg]
    simp [scrape_reddit_rss, hA]

/-- C5 witness: with community "a" always failing and "b" succeeding,
the harvest over `["a", "b"]` equals "b"'s own result, and "a"'s result
is insensitive to replacing the world by one where "b" also fails. -/
theorem reddit_per_community_isolation_witness :
    ((scrape_reddit_rss abEnv [("a" : String), ("b" : String)]).1 =
      (redditCommunity abEnv ("b")).1) ∧
    (redditCommunity abEnv ("a") = redditCommunity baseEnv ("a")) :=
  ⟨reddit_per_community_isolation.2.2 abEnv ("a") ("b") (fun _ => rfl),
   reddit_per_community_isolation.2.1 abEnv baseEnv ("a") (fun _ => rfl) rfl⟩

/-! ### C6: the retry loop -/

/-- C6 counterexample: in `okStatusBadBodyEnv`, attempt 1 of community
"a" answers with OK status 200 (its body merely fails to parse), yet the
loop does not stop there—it performs all 3 request attempts.  This
refutes the claim that a success defined as "OK status" on any attempt
stops further attempts. -/
theorem ok_status_does_not_stop_retries :
    okStatusBadBodyEnv.reddit ("a") 1 =
      RedditResp.resp 200 (Except.error ()) ∧
    countCalls (redditCommunity okStatusBadBodyEnv ("a")).2 = 3 :=
  ⟨rfl, rfl⟩

/-- C6 (corrected): per community the loop issues at most 3 request
attempts; when the listing URL passed the gate the event trace is a
well-formed retry trace (a backoff sleep strictly between consecutive
attempts, never after the last); and an attempt that returns OK status
200 with a *parseable* body—the code's actual success condition—stops
further attempts and yields that attempt's parsed items after exactly
`k` requests.  (An OK-status response whose body fails to parse is
treated as a failed attempt and retried, per the counterexample.) -/
theorem reddit_retry_bounds :
    ∀ (env : Env) (sub : String),
      countCalls (redditCommunity env sub).2 ≤ 3 ∧
      (is_safe_url env.dns (redditUrl (pyStrip sub)) = true →
        isRetryTrace (redditCommunity env sub).2 = true) ∧
      (∀ k posts, 1 ≤ k → k ≤ 3 →
        (∀ j, 1 ≤ j → j < k →
          attemptResult (env.reddit (pyStrip sub) j) = none) →
        attemptResult (env.reddit (pyStrip sub) k) = some posts →
        is_safe_url env.dns (redditUrl (pyStrip sub)) = true →
        (redditCommunity env sub).1 = parsePosts (pyStrip sub) posts ∧
        countCalls (redditCommunity env sub).2 = k) := by
  intro env sub
  by_cases hg : is_safe_url env.dns (redditUrl (pyStrip sub)) = true
  · have hred : redditCommunity env sub = redditTry env (pyStrip sub) 3 1 := by
      unfold redditCommunity
      rw [if_pos hg]
    rcases redditTry_trace_shape env (pyStrip sub) 3 1 (by omega) with
      ⟨i, hle, htr⟩
    refine ⟨?_, ?_, ?_⟩
    · rw [hred, htr, countCalls_retryTrace]
      omega
    · intro _
      rw [hred, htr]
      exact isRetryTrace_retryTrace _ i
    · intro k posts hk1 hk3 hfail hsucc _
      have hrun : redditTry env (pyStrip sub) 3 1 =
          (parsePosts (pyStrip sub) posts,
           retryTrace (redditUrl (pyStrip sub)) (k - 1)) := by
        refine redditTry_firstSuccess env (pyStrip sub) posts (k - 1) 3 1
          (by omega) ?_ ?_
        · intro j hj1 hj2
          exact hfail j (by omega) (by omega)
        · have hkk : 1 + (k - 1) = k := by omega
          rw [hkk]
          exact hsucc
      rw [hred, hrun]
      refine ⟨rfl, ?_⟩
      rw [countCalls_retryTrace]
      omega
  · have hred : redditCommunity env sub = ([], []) := by
      unfold redditCommunity
      rw [if_neg hg]
    refine ⟨?_, ?_, ?_⟩
    · rw [hred]
      simp [countCalls]
    · intro hgate
      exact absurd hgate hg
    · intro k posts _ _ _ _ hgate
      exact absurd hgate hg

/-- C6 witness: community "b" in `abEnv` succeeds on attempt 1: one
request, a well-formed trace, and exactly that attempt's parsed items. -/
theorem reddit_retry_bounds_witness :
    countCalls (redditCommunity abEnv ("b")).2 ≤ 3 ∧
    isRetryTrace (redditCommunity abEnv ("b")).2 = true ∧
    ((redditCommunity abEnv ("b")).1 =
        parsePosts (pyStrip ("b")) [goodPost] ∧
      countCalls (redditCommunity abEnv ("b")).2 = 1) :=
  ⟨(reddit_retry_bounds abEnv ("b")).1,
   (reddit_retry_bounds abEnv ("b")).2.1 rfl,
   (reddit_retry_bounds abEnv ("b")).2.2 1 [goodPost] (by omega) (by omega)
     (fun j hj1 hj2 => absurd hj2 (by omega)) rfl rfl⟩

/-! ### HN fan-out lemmas (Engine A) -/

lemma hnProcessList_skip :
    ∀ (pre post : List DetailResp) (bad : DetailResp), hnFailure bad →
      hnProcessList (pre ++ bad :: post) = hnProcessList (pre ++ post) := by
  intro pre post bad hbad
  induction pre with
  | nil =>
    simp only [List.nil_append]
    rcases hbad with h | ⟨s, b, h, hs⟩
    · subst h
      rfl
    · subst h
      simp [hnProcessList, hs]
  | cons r pre ih =>
    cases r with
    | exn => simpa [hnProcessList] using ih
    | resp s b =>
      by_cases hs : s = 200
      · cases b with
        | error e => simp [hnProcessList, hs]
        | ok story => simp [hnProcessList, hs, ih]
      · simp [hnProcessList, hs, ih]

lemma hnProcessList_ok_filterMap :
    ∀ (rs : List DetailResp) (l : List OpportunityRecord),
      hnProcessList rs = Except.ok l → l = rs.filterMap hnKeep := by
  intro rs
  induction rs with
  | nil =>
    intro l h
    simp only [hnProcessList] at h
    injection h with h2
    subst h2
    rfl
  | cons r rest ih =>
    intro l h
    cases r with
    | exn =>
      simp only [hnProcessList] at h
      simp only [List.filterMap_cons, hnKeep]
      exact ih l h
    | resp s b =>
      by_cases hs : s = 200
      · cases b with
        | error e => simp [hnProcessList, hs] at h
        | ok story =>
          simp only [hnProcessList, hs, if_true] at h
          cases hrec : hnProcessList rest with
          | error e2 => rw [hrec] at h; exact Except.noConfusion h
          | ok l2 =>
            rw [hrec] at h
            injection h with h2
            subst h2
            have hl2 := ih l2 hrec
            by_cases hkw : keywordHit story = true
            · simp [List.filterMap_cons, hnKeep, hs, hkw, hl2]
            · simp [List.filterMap_cons, hnKeep, hs, hkw, hl2]
      · simp only [hnProcessList, hs, if_false] at h
        simp only [List.filterMap_cons, hnKeep, hs, if_false]
        exact ih l h

/-! ### C8: the concurrent detail fan-out -/

/-- C8 (confirmed): under a passing gate and a parseable listing,
`scrape_hn_opportunities` schedules detail fetches exactly for the
first `limit` listing ids whose item URL passes the gate (in listing
order, as the trace shows), the failure of any single detail fetch
(awaited exception or non-200 status) removes exactly that item from
the processing without affecting the rest, and any abort-free
processing result is the in-order `filterMap` of the per-item handler—
so surviving records appear in request-issue order regardless of
completion order. -/
theorem hn_concurrent_fanout :
    (∀ (env : Env) (limit : Nat) (ids : List Int),
      is_safe_url env.dns hnListingUrl = true →
      env.hnListing = Except.ok ids →
      scrape_hn_opportunities env limit =
        (hnExtract (hnProcessList ((hnSched env limit ids).map env.hnDetail)),
         Ev.sleep :: Ev.call hnListingUrl true ::
           (hnSched env limit ids).map
             (fun sid => Ev.call (hnItemUrl sid) true))) ∧
    (∀ pre post bad, hnFailure bad →
      hnProcessList (pre ++ bad :: post) = hnProcessList (pre ++ post)) ∧
    (∀ rs l, hnProcessList rs = Except.ok l → l = rs.filterMap hnKeep) := by
  refine ⟨?_, hnProcessList_skip, hnProcessList_ok_filterMap⟩
  intro env limit ids hgate hlist
  simp [scrape_hn_opportunities, hgate, hlist]

/-- C8 witness: in `hnEnv` (listing `[1, 2, 3]`, story 2's detail fetch
raising) with `limit = 2`, the wiring equation holds; dropping the
raised response leaves the other response's processing unchanged; and
the processing of the surviving response is its in-order `filterMap`. -/
theorem hn_concurrent_fanout_witness :
    scrape_hn_opportunities hnEnv 2 =
      (hnExtract (hnProcessList ((hnSched hnEnv 2 [1, 2, 3]).map hnEnv.hnDetail)),
       Ev.sleep :: Ev.call hnListingUrl true ::
         (hnSched hnEnv 2 [1, 2, 3]).map
           (fun sid => Ev.call (hnItemUrl sid) true)) ∧
    hnProcessList ([DetailResp.resp 200 (Except.ok (hnStoryOf 1))] ++
        DetailResp.exn :: []) =
      hnProcessList ([DetailResp.resp 200 (Except.ok (hnStoryOf 1))] ++ []) ∧
    [hnRecord (hnStoryOf 1)] =
      [DetailResp.resp 200 (Except.ok (hnStoryOf 1))].filterMap hnKeep :=
  ⟨hn_concurrent_fanout.1 hnEnv 2 [1, 2, 3] rfl rfl,
   hn_concurrent_fanout.2.1 [DetailResp.resp 200 (Except.ok (hnStoryOf 1))]
     [] DetailResp.exn (Or.inl rfl),
   hn_concurrent_fanout.2.2 [DetailResp.resp 200 (Except.ok (hnStoryOf 1))]
     [hnRecord (hnStoryOf 1)] rfl⟩

/-! ### C2: the synthesis adapter's index space -/

lemma enrichOne_dropped (collected : List OpportunityRecord) (idea : RawIdea)
    (h : droppedIdea collected idea) :
    enrichOne collected idea = Except.ok none := by
  unfold droppedIdea at h
  cases hsid : idea.source_id with
  | error e => simp [enrichOne, hsid]
  | ok idx =>
    rw [hsid] at h
    simp only [enrichOne, hsid]
    rw [if_neg]
    omega

lemma enrichAll_skip_dropped (collected : List OpportunityRecord)
    (idea : RawIdea) (h : droppedIdea collected idea) :
    ∀ pre post, enrichAll collected (pre ++ idea :: post) =
      enrichAll collected (pre ++ post) := by
  intro pre post
  induction pre with
  | nil => simp [enrichAll, enrichOne_dropped collected idea h]
  | cons a pre ih =>
    simp [enrichAll, ih]

/-- C2 counterexample: a 31-record aggregated list is bounded to its
30-record prefix for submission (indices 0-29), yet the LLM reply whose
`source_id` is 30—outside the submitted prefix's index range—is NOT
dropped: the adapter enriches it from the never-submitted 31st record. -/
theorem out_of_prefix_idea_not_dropped :
    longCollected.length = 31 ∧
    outOfPrefixIdea.source_id = Except.ok 30 ∧
    generate_business_ideas outOfPrefixEnv longCollected =
      [{ name := "n", pitch := "p", source_text := "UNSUBMITTED",
         source_url := "ub", source_origin := "sb" }] :=
  ⟨rfl, rfl, rfl⟩

/-- C2 (corrected): the payload submitted to the LLM is a function of
exactly the first 30 aggregated records; a returned idea is dropped
(without raising and leaving the other ideas untouched) when its index
fails to parse or lies outside the range of the FULL aggregated list;
but an idea whose index is in range of the full list—even when it lies
beyond the submitted 30-record prefix—is not dropped: it is enriched
from the corresponding (possibly unsubmitted) record. -/
theorem synthesis_prefix_and_drop :
    (∀ c1 c2 : List OpportunityRecord, c1.take 30 = c2.take 30 →
      dataStr c1 = dataStr c2) ∧
    (∀ collected pre post (idea : RawIdea), droppedIdea collected idea →
      enrichAll collected (pre ++ idea :: post) =
        enrichAll collected (pre ++ post)) ∧
    (∀ (collected : List OpportunityRecord) (idea : RawIdea) (idx : Int)
        (n p : String),
      idea.source_id = Except.ok idx → idea.name = some n →
      idea.pitch = some p → 0 ≤ idx → idx < (collected.length : Int) →
      enrichOne collected idea =
        Except.ok (some
          { name := n, pitch := p,
            source_text := (collected.getD idx.toNat dfltRecord).text,
            source_url := (collected.getD idx.toNat dfltRecord).url,
            source_origin := (collected.getD idx.toNat dfltRecord).source })) := by
  refine ⟨?_, ?_, ?_⟩
  · intro c1 c2 h
    simp only [dataStr, h]
  · intro collected pre post idea h
    exact enrichAll_skip_dropped collected idea h pre post
  · intro collected idea idx n p hsid hname hpitch h0 hlen
    simp only [enrichOne, hsid]
    rw [if_pos ⟨h0, hlen⟩, hname, hpitch]

/-- C2 witness: the payload ignores records past index 29; an idea with
an unparseable index is dropped in place; and the out-of-prefix (but
in-full-range) idea of the counterexample is enriched from record 30. -/
theorem synthesis_prefix_and_drop_witness :
    dataStr (longCollected ++ [recA]) = dataStr longCollected ∧
    enrichAll longCollected ([outOfPrefixIdea] ++ valueErrorIdea :: []) =
      enrichAll longCollected ([outOfPrefixIdea] ++ []) ∧
    enrichOne longCollected outOfPrefixIdea =
      Except.ok (some
        { name := "n", pitch := "p",
          source_text := (longCollected.getD ((30 : Int)).toNat dfltRecord).text,
          source_url := (longCollected.getD ((30 : Int)).toNat dfltRecord).url,
          source_origin :=
            (longCollected.getD ((30 : Int)).toNat dfltRecord).source }) :=
  ⟨synthesis_prefix_and_drop.1 (longCollected ++ [recA]) longCollected rfl,
   synthesis_prefix_and_drop.2.1 longCollected [outOfPrefixIdea] []
     valueErrorIdea trivial,
   synthesis_prefix_and_drop.2.2 longCollected outOfPrefixIdea 30 "n" "p"
     rfl rfl rfl (by decide) (by decide)⟩
